import Mathlib

/-!
Verification of the lesson-plan approval workflow engine of this repository.

The development is a shallow embedding of the code paths that decide the
workflow claims:

* the status-update endpoint of the backend (server.js, PUT
  /api/lesson-plans/:id/status) as `updateStatus`;
* the comment endpoint (POST /api/lesson-plans/:id/comments) as `addComment`;
* the creation endpoint (POST /api/lesson-plans) as `createLessonPlan`;
* the team-role assignment endpoint (POST /api/teams/:id/assign-role) as
  `assignRole`;
* the client-side authorization guard of LessonPlanCard (canApproveTeam,
  canApprovePrincipal, renderApprovalActions) and the action dispatcher
  handleConfirmAction;
* the client-side visibility filter `baseVisiblePlans` of Dashboard.

Statuses and roles are Vietnamese display strings in the source (the Status
and Role string enums of the frontend, compared verbatim by the backend
switch); they are embedded here as closed inductives, with history action
labels kept as the exact source strings.  Timestamps are modelled as natural
numbers supplied by the caller.  Fields of the source records that no claim
touches (emails, passwords, OneDrive links, file payloads, grade and class
metadata) are omitted from the records.
-/

/-- The Role string enum of the frontend (SECTION 2: TYPES). -/
inductive Role where
  | admin
  | teacher
  | deputyTeamLeader
  | teamLeader
  | vicePrincipal
  | principal
deriving DecidableEq, Repr

/-- The Status string enum of the frontend (SECTION 2: TYPES). -/
inductive Status where
  | draft
  | submitted
  | rejectedByTL
  | approvedByTL
  | approved
  | rejectedByVP
  | issued
deriving DecidableEq, Repr

/-- The User record (frontend interface User / backend db.users entries);
authentication fields are omitted. -/
structure User where
  id : Nat
  name : String
  role : Role
  teamId : Option Nat
  schoolId : Option String
deriving DecidableEq, Repr

/-- The Team record (frontend interface Team / backend db.teams entries). -/
structure Team where
  id : Nat
  name : String
  leaderId : Option Nat
  deputyLeaderId : Option Nat
  schoolId : Option String
deriving DecidableEq, Repr

/-- The DelegationState record.  The teamDelegation JS object, which is only
ever read through a truthiness coercion of an indexing expression, is embedded
as a total function to Bool (absent keys read as false). -/
structure DelegationState where
  principalToVp : Bool
  teamDelegation : Nat → Bool

/-- A history entry (frontend interface HistoryEntry): action label string,
actor snapshot, timestamp, optional reason. -/
structure HistoryEntry where
  action : String
  user : User
  timestamp : Nat
  reason : Option String
deriving DecidableEq, Repr

/-- A comment entry (frontend interface CommentEntry). -/
structure CommentEntry where
  id : Nat
  user : User
  timestamp : Nat
  text : String
deriving DecidableEq, Repr

/-- The LessonPlan record (frontend interface LessonPlan / backend
db.lessonPlans entries), restricted to the fields the workflow touches. -/
structure LessonPlan where
  id : Nat
  title : String
  submittedBy : User
  teamId : Option Nat
  schoolId : Option String
  status : Status
  history : List HistoryEntry
  comments : List CommentEntry
  finalApprover : Option User
  finalApprovedAt : Option Nat
deriving DecidableEq, Repr

/-- The history action label the backend switch in PUT
/api/lesson-plans/:id/status picks for each recognized newStatus value.  The
switch covers all seven Status strings, so the default label is unreachable
for enum-valued requests and the match is total here. -/
def actionForStatus : Status → String
  | Status.submitted => "Nộp lại Kế hoạch bài dạy"
  | Status.rejectedByTL => "Tổ trưởng từ chối"
  | Status.approvedByTL => "Tổ trưởng đã duyệt"
  | Status.approved => "Hiệu trưởng đã duyệt"
  | Status.rejectedByVP => "Hiệu trưởng từ chối"
  | Status.issued => "Đã ban hành"
  | Status.draft => "Thu hồi để chỉnh sửa"

/-- The reason field of the appended history entry: the backend spreads
(reason and open-brace reason close-brace), so the key is present exactly when
reason is a truthy (present and non-empty) string. -/
def reasonField : Option String → Option String
  | none => none
  | some s => if s = "" then none else some s

/-- Embedding of the backend status-update handler (server.js, PUT
/api/lesson-plans/:id/status) applied to the resolved plan.  The handler sets
plan.status to the requested value unconditionally, sets
finalApprover/finalApprovedAt when the requested value is the Issued label,
and appends a history entry.  The handler resolves its currentUser to a fixed
mock user (db.users id 4); that resolved user is the currentUser argument
here. -/
def updateStatus (plan : LessonPlan) (newStatus : Status) (reason : Option String)
    (currentUser : User) (now : Nat) : LessonPlan :=
  let withStatus := { plan with status := newStatus }
  let withFinal :=
    if newStatus = Status.issued then
      { withStatus with finalApprover := some currentUser, finalApprovedAt := some now }
    else withStatus
  { withFinal with
      history := withFinal.history ++
        [{ action := actionForStatus newStatus, user := currentUser,
           timestamp := now, reason := reasonField reason }] }

/-- Executable model of the JS string trim: drop leading and trailing
whitespace characters.  (The core String.trim is extensionally the same
operation but is defined by well-founded recursion and does not reduce in the
kernel, so the character-list form is used throughout.) -/
def trimString (s : String) : String :=
  String.mk (((s.data.dropWhile Char.isWhitespace).reverse.dropWhile
    Char.isWhitespace).reverse)

/-- Embedding of the backend comment handler (server.js, POST
/api/lesson-plans/:id/comments).  A missing text, or a text whose trim is
empty, is rejected with a 400 validation message; otherwise the trimmed text
is appended as a new comment.  The comment id and timestamp are
caller-supplied here (Date.now and new Date in the source). -/
def addComment (plan : LessonPlan) (text : Option String) (currentUser : User)
    (cid : Nat) (now : Nat) : Except String LessonPlan :=
  match text with
  | none => Except.error "Comment text cannot be empty"
  | some s =>
      if trimString s = "" then Except.error "Comment text cannot be empty"
      else Except.ok
        { plan with comments := plan.comments ++
            [{ id := cid, user := currentUser, timestamp := now,
               text := trimString s }] }

/-- The details JSON of a creation request (the client sends UploadDetails
plus schoolId; the endpoint accepts arbitrary JSON, so a teamId key may also
be present and is modelled explicitly). -/
structure PlanDetails where
  title : String
  subject : Option String
  teamId : Option Nat
  schoolId : Option String
deriving DecidableEq, Repr

/-- Embedding of the backend creation handler (server.js, POST
/api/lesson-plans).  The new plan spreads planDetails first and then writes
submittedBy and teamId, so the teamId of the submitter overrides any teamId
supplied in the details. -/
def createLessonPlan (details : PlanDetails) (submitter : User) (isDraft : Bool)
    (newId : Nat) (now : Nat) : LessonPlan :=
  { id := newId
    title := details.title
    submittedBy := submitter
    teamId := submitter.teamId
    schoolId := details.schoolId
    status := if isDraft then Status.draft else Status.submitted
    history := [{ action := if isDraft then "Tạo bản nháp" else "Nộp Kế hoạch bài dạy",
                  user := submitter, timestamp := now, reason := none }]
    comments := []
    finalApprover := none
    finalApprovedAt := none }

/-- The slot argument of the team-role assignment endpoint (roleType is the
string leader or deputy). -/
inductive RoleSlot where
  | leader
  | deputy
deriving DecidableEq, Repr

/-- Embedding of the backend team-role assignment handler (server.js, POST
/api/teams/:id/assign-role) applied to the resolved team and the user list.
It records the previous holder of the requested slot, writes the requested
slot, demotes the previous holder to the Teacher role when they differ from
the new user, and promotes the new user; the other slot of the team is never
touched. -/
def assignRole (team : Team) (users : List User) (slot : RoleSlot)
    (userId : Option Nat) : Team × List User :=
  let userToDemoteId := match slot with
    | RoleSlot.leader => team.leaderId
    | RoleSlot.deputy => team.deputyLeaderId
  let newTeam := match slot with
    | RoleSlot.leader => { team with leaderId := userId }
    | RoleSlot.deputy => { team with deputyLeaderId := userId }
  let usersAfterDemote := match userToDemoteId with
    | some oldId =>
        if userId ≠ some oldId then
          users.map fun u => if u.id = oldId then { u with role := Role.teacher } else u
        else users
    | none => users
  let usersAfterPromote := match userId with
    | some newId =>
        usersAfterDemote.map fun u =>
          if u.id = newId then
            { u with role := match slot with
                | RoleSlot.leader => Role.teamLeader
                | RoleSlot.deputy => Role.deputyTeamLeader }
          else u
    | none => usersAfterDemote
  (newTeam, usersAfterPromote)

/-- The truthiness of the teamDelegation indexing expression of the client
guard: indexing with an absent plan.teamId reads as undefined and coerces to
false. -/
def lookupDelegation (deleg : DelegationState) (teamId : Option Nat) : Bool :=
  match teamId with
  | none => false
  | some t => deleg.teamDelegation t

/-- The canApproveTeam boolean of renderApprovalActions in LessonPlanCard:
a team leader of the plan team, or a deputy team leader of the plan team
whose team has the delegation flag set. -/
def canApproveTeam (currentUser : User) (plan : LessonPlan)
    (deleg : DelegationState) : Bool :=
  (decide (currentUser.role = Role.teamLeader)
      && decide (currentUser.teamId = plan.teamId))
  || (decide (currentUser.role = Role.deputyTeamLeader)
      && decide (currentUser.teamId = plan.teamId)
      && lookupDelegation deleg plan.teamId)

/-- The canApprovePrincipal boolean of renderApprovalActions in
LessonPlanCard: the principal, or the vice principal when principalToVp is
set. -/
def canApprovePrincipal (currentUser : User) (deleg : DelegationState) : Bool :=
  decide (currentUser.role = Role.principal)
  || (decide (currentUser.role = Role.vicePrincipal) && deleg.principalToVp)

/-- The buttons renderApprovalActions can offer. -/
inductive ApprovalButton where
  | approve
  | reject
  | cancel
deriving DecidableEq, Repr

/-- Embedding of renderApprovalActions of LessonPlanCard: which approval
buttons are rendered for the current user on a given plan, preserving the
control flow of the source (teacher short-circuit, then the team-tier checks,
then the institution-tier checks). -/
def renderApprovalActions (currentUser : User) (plan : LessonPlan)
    (deleg : DelegationState) : List ApprovalButton :=
  if currentUser.role = Role.teacher then []
  else if canApproveTeam currentUser plan deleg
      && decide (plan.status = Status.submitted) then
    [ApprovalButton.approve, ApprovalButton.reject]
  else if canApproveTeam currentUser plan deleg
      && decide (plan.status = Status.approvedByTL) then
    [ApprovalButton.cancel]
  else if canApprovePrincipal currentUser deleg
      && decide (plan.status = Status.approvedByTL) then
    [ApprovalButton.approve, ApprovalButton.reject]
  else if canApprovePrincipal currentUser deleg
      && decide (plan.status = Status.approved) then
    [ApprovalButton.cancel]
  else []

/-- The actionType of the confirmation modal of LessonPlanCard. -/
inductive ActionKind where
  | approve
  | reject
  | cancel
deriving DecidableEq, Repr

/-- The outcome of handleConfirmAction: the missing-reason error notification
(the modal stays open and no request is sent), a silent close of the modal
with no request, or a status request sent to the backend. -/
inductive ConfirmOutcome where
  | missingReason
  | closed
  | act (newStatus : Status) (reason : Option String)
deriving DecidableEq, Repr

/-- The truthiness of the optional-chained trim in handleConfirmAction: a
missing reason, or one whose trim is empty, is falsy. -/
def trimNonempty : Option String → Bool
  | none => false
  | some s => decide (trimString s ≠ "")

/-- Embedding of handleConfirmAction of LessonPlanCard.  A reject with a
falsy trimmed reason raises the missing-information error notification before
anything else; otherwise the next status is derived from the action kind, the
plan status (for approve and cancel) and the current user role (for reject),
and unmatched cases close the modal silently. -/
def handleConfirmAction (actionKind : ActionKind) (currentUser : User)
    (plan : LessonPlan) (reason : Option String) : ConfirmOutcome :=
  if actionKind = ActionKind.reject ∧ trimNonempty reason = false then
    ConfirmOutcome.missingReason
  else
    match actionKind with
    | ActionKind.approve =>
        if plan.status = Status.submitted then
          ConfirmOutcome.act Status.approvedByTL reason
        else if plan.status = Status.approvedByTL then
          ConfirmOutcome.act Status.approved reason
        else ConfirmOutcome.closed
    | ActionKind.cancel =>
        if plan.status = Status.approvedByTL then
          ConfirmOutcome.act Status.submitted reason
        else if plan.status = Status.approved then
          ConfirmOutcome.act Status.approvedByTL reason
        else ConfirmOutcome.closed
    | ActionKind.reject =>
        if currentUser.role = Role.teamLeader ∨ currentUser.role = Role.deputyTeamLeader then
          ConfirmOutcome.act Status.rejectedByTL reason
        else if currentUser.role = Role.principal ∨ currentUser.role = Role.vicePrincipal then
          ConfirmOutcome.act Status.rejectedByVP reason
        else ConfirmOutcome.closed

/-- The result of a full reject round trip: the client validation error (no
request sent, document untouched), a silent no-op, or the updated document
returned by the backend. -/
inductive RejectResult where
  | validationFailure
  | noAction
  | updated (plan : LessonPlan)
deriving DecidableEq, Repr

/-- The reject pipeline of the running program: handleConfirmAction with the
reject action kind, followed, when a request is produced, by the backend
status-update handler (handleLessonPlanAction sends the request and the
backend stamps its resolved serverActor and timestamp). -/
def rejectPipeline (currentUser : User) (plan : LessonPlan) (reason : Option String)
    (serverActor : User) (now : Nat) : RejectResult :=
  match handleConfirmAction ActionKind.reject currentUser plan reason with
  | ConfirmOutcome.missingReason => RejectResult.validationFailure
  | ConfirmOutcome.closed => RejectResult.noAction
  | ConfirmOutcome.act newStatus r =>
      RejectResult.updated (updateStatus plan newStatus r serverActor now)

/-- Embedding of baseVisiblePlans of Dashboard: the role-scoped subset of the
lesson plans handed to the dashboard.  The admin role never reaches this
switch in the source (a separate dashboard is rendered) and falls to the
default empty list. -/
def baseVisiblePlans (currentUser : User) (lessonPlans : List LessonPlan) :
    List LessonPlan :=
  match currentUser.role with
  | Role.teacher =>
      lessonPlans.filter fun p => decide (p.submittedBy.id = currentUser.id)
  | Role.deputyTeamLeader =>
      lessonPlans.filter fun p => decide (p.teamId = currentUser.teamId)
  | Role.teamLeader =>
      lessonPlans.filter fun p => decide (p.teamId = currentUser.teamId)
  | Role.vicePrincipal =>
      lessonPlans.filter fun p =>
        decide (p.status = Status.approvedByTL) || decide (p.status = Status.rejectedByVP)
        || decide (p.status = Status.approved) || decide (p.status = Status.issued)
  | Role.principal => lessonPlans
  | Role.admin => []

/-! Sample data mirroring the seed records of server.js (MOCK_USERS_DATA,
MOCK_DATA), restricted to the embedded fields. -/

/-- Seed user 4, the team leader of team 1 of school THCS-BINHSON, and also
the fixed mock actor the backend handlers resolve as currentUser. -/
def mockTeamLead : User :=
  { id := 4, name := "Lê Minh Cường", role := Role.teamLeader,
    teamId := some 1, schoolId := some "THCS-BINHSON" }

/-- Seed user 5, the deputy team leader of team 1 of school THCS-BINHSON. -/
def mockDeputy : User :=
  { id := 5, name := "Phạm Thị Dung", role := Role.deputyTeamLeader,
    teamId := some 1, schoolId := some "THCS-BINHSON" }

/-- Seed user 6, a teacher of team 1 of school THCS-BINHSON. -/
def mockTeacher : User :=
  { id := 6, name := "Hoàng Văn Em", role := Role.teacher,
    teamId := some 1, schoolId := some "THCS-BINHSON" }

/-- Seed user 2, the principal of school THCS-BINHSON. -/
def mockPrincipal : User :=
  { id := 2, name := "Nguyễn Văn An", role := Role.principal,
    teamId := none, schoolId := some "THCS-BINHSON" }

/-- A team leader of the other seed school THPT-SONTINH whose teamId happens
to coincide with team 1 of THCS-BINHSON (team ids are global in the data
model, so nothing ties a teamId to one school). -/
def crossSchoolLead : User :=
  { id := 20, name := "Trần Văn Mười", role := Role.teamLeader,
    teamId := some 1, schoolId := some "THPT-SONTINH" }

/-- Seed plan 1: submitted, team 1, school THCS-BINHSON. -/
def submittedPlan : LessonPlan :=
  { id := 1, title := "Bài dạy: Phản ứng Oxi hóa - Khử", submittedBy := mockTeacher,
    teamId := some 1, schoolId := some "THCS-BINHSON", status := Status.submitted,
    history := [{ action := "Nộp Kế hoạch bài dạy", user := mockTeacher,
                  timestamp := 10, reason := none }],
    comments := [], finalApprover := none, finalApprovedAt := none }

/-- Seed plan 4: already issued (the terminal status), team 2, school
THCS-BINHSON. -/
def issuedPlan : LessonPlan :=
  { id := 4, title := "Bài dạy: Lịch sử Việt Nam giai đoạn 1945-1954",
    submittedBy := mockTeacher,
    teamId := some 2, schoolId := some "THCS-BINHSON", status := Status.issued,
    history := [{ action := "Đã ban hành", user := mockPrincipal,
                  timestamp := 40, reason := none }],
    comments := [], finalApprover := some mockPrincipal, finalApprovedAt := some 40 }

/-- A plan of team 2 used by the visibility witness. -/
def otherTeamPlan : LessonPlan :=
  { id := 2, title := "Bài dạy: Truyện Kiều - Nguyễn Du", submittedBy := mockTeacher,
    teamId := some 2, schoolId := some "THCS-BINHSON", status := Status.rejectedByTL,
    history := [], comments := [], finalApprover := none, finalApprovedAt := none }

/-- The seed delegation state: every flag off. -/
def noDelegation : DelegationState :=
  { principalToVp := false, teamDelegation := fun _ => false }

/-- The delegation state after the team 1 flag is switched on. -/
def delegationTeam1 : DelegationState :=
  { principalToVp := false, teamDelegation := fun t => decide (t = 1) }

/-- Seed team 1 with its leader (user 4) and deputy (user 5). -/
def team1 : Team :=
  { id := 1, name := "Tổ Khoa học Tự nhiên", leaderId := some 4,
    deputyLeaderId := some 5, schoolId := some "THCS-BINHSON" }

/-! Theorems settling the claims. -/

/-- Helper: a reason whose optional-chained trim is truthy is a present,
non-empty string, so the backend reason spread keeps it verbatim. -/
theorem reasonField_eq_of_trimNonempty (r : Option String)
    (h : trimNonempty r = true) : reasonField r = r := by
  cases r with
  | none => simp [trimNonempty] at h
  | some s =>
      have hs : s ≠ "" := by
        intro he
        subst he
        exact absurd h (by decide)
      simp [reasonField, hs]

/-- C1: evaluation of the status endpoint at an out-of-table input.  The
Issued status is terminal, so the pair (Issued, request for Submitted) is not
in the transition table of the spec; the backend nonetheless changes the
status and appends a history entry, instead of failing with InvalidTransition
and leaving the document unchanged. -/
theorem updateStatus_accepts_out_of_table :
    (updateStatus issuedPlan Status.submitted none mockTeamLead 100).status
        = Status.submitted
    ∧ (updateStatus issuedPlan Status.submitted none mockTeamLead 100).history.length
        = issuedPlan.history.length + 1 :=
  ⟨rfl, rfl⟩

/-- C2: evaluation of the transition path at a cross-tenant input.  A team
leader of school THPT-SONTINH whose teamId matches a THCS-BINHSON document is
permitted by the guard, is shown the approve and reject buttons, and the
backend applies the transition: no tenant-mismatch denial exists anywhere on
the path. -/
theorem tenant_mismatch_not_denied :
    crossSchoolLead.schoolId ≠ submittedPlan.schoolId
    ∧ crossSchoolLead.role ≠ Role.admin
    ∧ canApproveTeam crossSchoolLead submittedPlan noDelegation = true
    ∧ renderApprovalActions crossSchoolLead submittedPlan noDelegation
        = [ApprovalButton.approve, ApprovalButton.reject]
    ∧ (updateStatus submittedPlan Status.approvedByTL none mockTeamLead 100).status
        = Status.approvedByTL := by
  refine ⟨by decide, by decide, rfl, rfl, rfl⟩

/-- C3: the team-tier guard permits exactly a team leader of the document
team, or a deputy team leader of the document team whose team has the
delegation flag set; in particular a deputy of the document team is denied
whenever the flag of that team is false and permitted whenever it is true. -/
theorem canApproveTeam_delegation_rule (u : User) (p : LessonPlan)
    (d : DelegationState) :
    (canApproveTeam u p d = true ↔
      ((u.role = Role.teamLeader ∧ u.teamId = p.teamId)
        ∨ (u.role = Role.deputyTeamLeader ∧ u.teamId = p.teamId
            ∧ ∃ t, p.teamId = some t ∧ d.teamDelegation t = true)))
    ∧ (∀ t, u.role = Role.deputyTeamLeader → u.teamId = p.teamId →
        p.teamId = some t →
        (d.teamDelegation t = false → canApproveTeam u p d = false)
        ∧ (d.teamDelegation t = true → canApproveTeam u p d = true)) := by
  constructor
  · cases hpt : p.teamId with
    | none => simp [canApproveTeam, lookupDelegation, hpt]
    | some t => simp [canApproveTeam, lookupDelegation, hpt, and_assoc]
  · intro t hrole hteam hpt
    constructor
    · intro hflag
      simp [canApproveTeam, lookupDelegation, hrole, hteam, hpt, hflag]
    · intro hflag
      simp [canApproveTeam, lookupDelegation, hrole, hteam, hpt, hflag]

/-- Witness for C3: scenario C of the spec on the seed data: the deputy of
team 1 is denied while the team 1 flag is off and permitted once it is on. -/
theorem canApproveTeam_delegation_rule_witness :
    canApproveTeam mockDeputy submittedPlan noDelegation = false
    ∧ canApproveTeam mockDeputy submittedPlan delegationTeam1 = true := by
  refine
    ⟨((canApproveTeam_delegation_rule mockDeputy submittedPlan noDelegation).2
        1 rfl rfl rfl).1 rfl,
     ((canApproveTeam_delegation_rule mockDeputy submittedPlan delegationTeam1).2
        1 rfl rfl rfl).2 rfl⟩

/-- C4: a reject whose reason is missing or trims to empty is stopped by the
client validation (the missing-information error, a constructor distinct from
the silent close that stands for an unauthorized or unmatched action) and no
request reaches the backend, so nothing is appended; with a non-empty reason
the document moves to the rejected status of the acting tier and the appended
history entry carries that reason verbatim. -/
theorem reject_requires_nonempty_reason (u : User) (p : LessonPlan)
    (reason : Option String) (sa : User) (now : Nat) :
    (trimNonempty reason = false →
      rejectPipeline u p reason sa now = RejectResult.validationFailure)
    ∧ (trimNonempty reason = true →
        (u.role = Role.teamLeader ∨ u.role = Role.deputyTeamLeader) →
        rejectPipeline u p reason sa now = RejectResult.updated
          { p with status := Status.rejectedByTL,
                   history := p.history ++
                     [{ action := "Tổ trưởng từ chối", user := sa,
                        timestamp := now, reason := reason }] })
    ∧ (trimNonempty reason = true →
        (u.role = Role.principal ∨ u.role = Role.vicePrincipal) →
        rejectPipeline u p reason sa now = RejectResult.updated
          { p with status := Status.rejectedByVP,
                   history := p.history ++
                     [{ action := "Hiệu trưởng từ chối", user := sa,
                        timestamp := now, reason := reason }] }) := by
  refine ⟨?_, ?_, ?_⟩
  · intro h
    simp [rejectPipeline, handleConfirmAction, h]
  · intro h hrole
    have hrf := reasonField_eq_of_trimNonempty reason h
    have hc : handleConfirmAction ActionKind.reject u p reason
        = ConfirmOutcome.act Status.rejectedByTL reason := by
      unfold handleConfirmAction
      rw [if_neg (by simp [h]), if_pos hrole]
    simp [rejectPipeline, hc, updateStatus, actionForStatus, hrf]
  · intro h hrole
    have hrf := reasonField_eq_of_trimNonempty reason h
    have hnotTeam : ¬(u.role = Role.teamLeader ∨ u.role = Role.deputyTeamLeader) := by
      rcases hrole with h2 | h2 <;> simp [h2]
    have hc : handleConfirmAction ActionKind.reject u p reason
        = ConfirmOutcome.act Status.rejectedByVP reason := by
      unfold handleConfirmAction
      rw [if_neg (by simp [h]), if_neg hnotTeam, if_pos hrole]
    simp [rejectPipeline, hc, updateStatus, actionForStatus, hrf]

/-- Witness for C4: scenario B of the spec on the seed data: the team leader
rejecting with an empty reason hits the validation failure, and rejecting
with a real reason lands the plan in the team-rejected status with the
reason recorded. -/
theorem reject_requires_nonempty_reason_witness :
    rejectPipeline mockTeamLead submittedPlan none mockTeamLead 100
        = RejectResult.validationFailure
    ∧ rejectPipeline mockTeamLead submittedPlan (some "Needs revision") mockTeamLead 100
        = RejectResult.updated
          { submittedPlan with
              status := Status.rejectedByTL
              history := submittedPlan.history ++
                [{ action := "Tổ trưởng từ chối", user := mockTeamLead,
                   timestamp := 100, reason := some "Needs revision" }] } := by
  refine
    ⟨(reject_requires_nonempty_reason mockTeamLead submittedPlan none
        mockTeamLead 100).1 rfl,
     (reject_requires_nonempty_reason mockTeamLead submittedPlan
        (some "Needs revision") mockTeamLead 100).2.1 (by decide) (Or.inl rfl)⟩

/-- C5: evaluation of the role-assignment endpoint at the failing input.
Assigning user 5, the current deputy of team 1, as the leader of team 1
leaves the deputy slot untouched: afterwards user 5 holds both the leader and
the deputy slot of the same team, so the operation does not vacate the other
slot as the invariant requires. -/
theorem assignRole_leaves_dual_slot :
    (assignRole team1 [mockTeamLead, mockDeputy] RoleSlot.leader (some 5)).1.leaderId
        = some 5
    ∧ (assignRole team1 [mockTeamLead, mockDeputy] RoleSlot.leader (some 5)).1.deputyLeaderId
        = some 5
    ∧ (assignRole team1 [mockTeamLead, mockDeputy] RoleSlot.leader (some 5)).2
        = [{ mockTeamLead with role := Role.teacher },
           { mockDeputy with role := Role.teamLeader }] := by
  refine ⟨rfl, rfl, by decide⟩

/-- C6: for a team leader of the document team, the team-tier guard verdict
is the same under any two delegation states; in particular switching the flag
of the team off never revokes the leader. -/
theorem teamLead_verdict_delegation_independent (u : User) (p : LessonPlan)
    (d d2 : DelegationState) (hrole : u.role = Role.teamLeader)
    (_hteam : u.teamId = p.teamId) :
    canApproveTeam u p d = canApproveTeam u p d2 := by
  simp [canApproveTeam, hrole]

/-- Witness for C6: the seed team leader of team 1 gets the same verdict with
the team 1 flag on and off. -/
theorem teamLead_verdict_delegation_independent_witness :
    canApproveTeam mockTeamLead submittedPlan delegationTeam1
        = canApproveTeam mockTeamLead submittedPlan noDelegation :=
  teamLead_verdict_delegation_independent mockTeamLead submittedPlan
    delegationTeam1 noDelegation rfl rfl

/-- C7: on one tenant list of plans, a team leader sees exactly the plans of
their team, and every plan visible to the team leader is visible to a
principal (who sees the whole list). -/
theorem principal_visibility_superset (plans : List LessonPlan) (pr tl : User)
    (hpr : pr.role = Role.principal) (htl : tl.role = Role.teamLeader) :
    baseVisiblePlans tl plans
        = plans.filter (fun p => decide (p.teamId = tl.teamId))
    ∧ ∀ p ∈ baseVisiblePlans tl plans, p ∈ baseVisiblePlans pr plans := by
  constructor
  · simp [baseVisiblePlans, htl]
  · intro p hp
    rw [show baseVisiblePlans pr plans = plans by simp [baseVisiblePlans, hpr]]
    rw [show baseVisiblePlans tl plans
          = plans.filter (fun q => decide (q.teamId = tl.teamId)) by
        simp [baseVisiblePlans, htl]] at hp
    exact List.mem_of_mem_filter hp

/-- Witness for C7: on a two-plan tenant list, the team 1 leader sees the
team 1 restriction and the plan they see is in the principal view. -/
theorem principal_visibility_superset_witness :
    baseVisiblePlans mockTeamLead [submittedPlan, otherTeamPlan]
        = ([submittedPlan, otherTeamPlan].filter
            (fun p => decide (p.teamId = mockTeamLead.teamId)))
    ∧ submittedPlan ∈ baseVisiblePlans mockPrincipal [submittedPlan, otherTeamPlan] := by
  refine
    ⟨(principal_visibility_superset [submittedPlan, otherTeamPlan]
        mockPrincipal mockTeamLead rfl rfl).1,
     (principal_visibility_superset [submittedPlan, otherTeamPlan]
        mockPrincipal mockTeamLead rfl rfl).2 submittedPlan (by decide)⟩

/-- C8: the status endpoint writes finalApprover and finalApprovedAt exactly
on a request reaching the Issued status, recording the acting user and the
timestamp; on a request for any other status both fields keep their previous
values. -/
theorem finalApprover_set_only_on_issued (p : LessonPlan) (ns : Status)
    (r : Option String) (u : User) (now : Nat) :
    (updateStatus p ns r u now).finalApprover
        = (if ns = Status.issued then some u else p.finalApprover)
    ∧ (updateStatus p ns r u now).finalApprovedAt
        = (if ns = Status.issued then some now else p.finalApprovedAt) := by
  by_cases h : ns = Status.issued <;> simp [updateStatus, h]

/-- C9: the comment endpoint rejects a missing text and a whitespace-only
text with the empty-comment validation error, appending nothing, and an
accepted comment stores the submitted text with leading and trailing
whitespace removed. -/
theorem addComment_blank_rejected_and_trimmed (p : LessonPlan) (s : String)
    (u : User) (cid now : Nat) :
    addComment p none u cid now = Except.error "Comment text cannot be empty"
    ∧ (trimString s = "" →
        addComment p (some s) u cid now
          = Except.error "Comment text cannot be empty")
    ∧ (trimString s ≠ "" →
        addComment p (some s) u cid now = Except.ok
          { p with comments := p.comments ++
              [{ id := cid, user := u, timestamp := now,
                 text := trimString s }] }) := by
  refine ⟨rfl, fun h => by simp [addComment, h], fun h => by simp [addComment, h]⟩

/-- Witness for C9: a whitespace-only comment is rejected and a padded
comment is stored trimmed. -/
theorem addComment_blank_rejected_and_trimmed_witness :
    addComment submittedPlan (some "   ") mockTeamLead 7 100
        = Except.error "Comment text cannot be empty"
    ∧ addComment submittedPlan (some "  can bo sung  ") mockTeamLead 7 100
        = Except.ok { submittedPlan with comments := submittedPlan.comments ++
            [{ id := 7, user := mockTeamLead, timestamp := 100,
               text := trimString "  can bo sung  " }] } := by
  refine
    ⟨(addComment_blank_rejected_and_trimmed submittedPlan "   "
        mockTeamLead 7 100).2.1 (by decide),
     (addComment_blank_rejected_and_trimmed submittedPlan "  can bo sung  "
        mockTeamLead 7 100).2.2 (by decide)⟩

/-- C10: the created plan takes its teamId from the submitting user,
overriding any teamId value present in the request details, for draft and
direct submissions alike. -/
theorem createLessonPlan_teamId_from_submitter (details : PlanDetails)
    (submitter : User) (isDraft : Bool) (newId now : Nat) :
    (createLessonPlan details submitter isDraft newId now).teamId
        = submitter.teamId
    ∧ ∀ t, (createLessonPlan { details with teamId := some t }
          submitter isDraft newId now).teamId = submitter.teamId :=
  ⟨rfl, fun _ => rfl⟩
